import Mathlib

/-!
Verification development for the music relay server.

The definitions below are a shallow embedding of the JavaScript source:

* `server.js` — the image-cache refresher (`fetchMusicImage`, `refreshImage`,
  the `/api/music-image` handler), the pagination loop used by
  `/api/artist/:id/playlists` and `/api/artist/:id/top`, and the
  `/api/playlist-tracks` flattening route.
* the audio-analysis module — `analyzeAudioBuffer`, the 32-band byte-energy
  estimator.

JavaScript machine behaviour is made explicit: string truthiness is
`jsTruthyStr`, the `expr || null` idiom is `jsOrNull`, numbers that may be
NaN are `Option ℚ` (`none` = NaN), `Math.random`-driven indexing is an
explicit index parameter, `Date.now()` is an explicit `Int` millisecond
parameter, and every network interaction is an explicit outcome value.
-/

/-- JavaScript truthiness of a nullable string: `null`/`undefined` and the
empty string are falsy, every other string is truthy. -/
def jsTruthyStr : Option String → Bool
  | some s => s != ""
  | none => false

/-- The JavaScript idiom `expr || null` on a nullable string: the empty
string (falsy) collapses to `null`. -/
def jsOrNull : Option String → Option String
  | some s => if s = "" then none else some s
  | none => none

/-- The fixed candidate query list `musicQueries` (server.js lines 27-48). -/
def musicQueries : List String :=
  [ "music concert", "music festival", "vinyl records", "music studio",
    "headphones music", "guitar player", "piano keys", "dj equipment",
    "live band", "singer performing", "music notes", "rock band",
    "jazz musician", "classical music", "music producer", "concert crowd",
    "music instruments", "music sheet", "music technology",
    "music festival stage" ]

/-- The options record passed to `fetchMusicImage`. -/
structure FetchOptions where
  query : String
  orientation : String
  size : String
  color : String
deriving DecidableEq, Repr

/-- One photo of the Pexels response body: `src` maps a size name
(`large2x`, ...) to a URL, embedded as an association list. -/
structure Photo where
  src : List (String × String)
deriving DecidableEq, Repr

/-- What the network did for one Pexels call.  `networkError` stands for any
exception inside the `try` block (transport failure, JSON parse failure),
`httpError` for a response with `!response.ok`, `ok` for a parsed body. -/
inductive FetchOutcome where
  | networkError
  | httpError (status : Nat)
  | ok (photos : List Photo)
deriving DecidableEq, Repr

/-- The record returned by `fetchMusicImage` (server.js lines 70-80). -/
structure FetchResult where
  imageUrl : Option String
  queryUsed : String
  error : Option String
deriving DecidableEq, Repr

/-- `fetchMusicImage` (server.js lines 51-82).  The function catches every
error, so it is total: failures yield `imageUrl = null` together with the
requested query; success extracts `data.photos?.[0]?.src?.[options.size] || null`.
The exact error-message strings are placeholders for the logged messages. -/
def fetchMusicImage (options : FetchOptions) (outcome : FetchOutcome) : FetchResult :=
  match outcome with
  | .networkError =>
      { imageUrl := none, queryUsed := options.query, error := some "fetch failed" }
  | .httpError _ =>
      { imageUrl := none, queryUsed := options.query, error := some "API error" }
  | .ok photos =>
      { imageUrl := jsOrNull (photos.head?.bind fun p => p.src.lookup options.size)
        queryUsed := options.query
        error := none }

/-- The module-level cache slot: `cachedImage`, `lastFetchTime`,
`lastQueryUsed` (server.js lines 22-24).  Initially
`⟨none, 0, ""⟩`. -/
structure CacheState where
  cachedImage : Option String
  lastFetchTime : Int
  lastQueryUsed : String
deriving DecidableEq, Repr

/-- The options built by the timer-triggered `refreshImage` (server.js
lines 87-92): a random candidate query, fixed landscape/large2x, no color
(`undefined`, falsy, embedded as `""`).  `idx` is the value of
`Math.floor(Math.random() * musicQueries.length)`. -/
def timerOpts (idx : Nat) : FetchOptions :=
  { query := musicQueries.getD (idx % musicQueries.length) ""
    orientation := "landscape"
    size := "large2x"
    color := "" }

/-- The timer-triggered `refreshImage` (server.js lines 85-103): overwrite
the whole slot only when the fetched `imageUrl` is truthy, otherwise leave
the slot untouched.  `now` is `Date.now()` at the write. -/
def refreshImage (idx : Nat) (outcome : FetchOutcome) (now : Int) (s : CacheState) : CacheState :=
  let opts := timerOpts idx
  let newImage := fetchMusicImage opts outcome
  if jsTruthyStr newImage.imageUrl then
    { cachedImage := newImage.imageUrl, lastFetchTime := now, lastQueryUsed := opts.query }
  else s

/-- The query parameters of a `/api/music-image` request.  The JavaScript
handler destructures only `orientation`, `size`, `color` and `forceRefresh`
from `req.query`; a `query` parameter may be present in the request but is
never read (server.js lines 108-113). -/
structure ImageRequest where
  query : Option String
  orientation : Option String
  size : Option String
  color : Option String
  forceRefresh : Option String
deriving DecidableEq, Repr

/-- `toLowerCase()` on a query-parameter string, lowering each character
(sufficient for the ASCII flag values the comparison is made against). -/
def jsToLower (s : String) : String := String.mk (s.data.map Char.toLower)

/-- `forceRefresh.toLowerCase() === 'true'` with the default `'false'`
(server.js lines 112, 115). -/
def shouldRefreshOf (req : ImageRequest) : Bool :=
  jsToLower (req.forceRefresh.getD "false") == "true"

/-- `cacheDuration = 1 * 60 * 1000` milliseconds (server.js line 117). -/
def cacheDuration : Int := 60000

/-- The request-triggered refresh condition
`shouldRefresh || !cachedImage || (currentTime - lastFetchTime) > cacheDuration`
(server.js line 119). -/
def refreshNeeded (req : ImageRequest) (currentTime : Int) (s : CacheState) : Bool :=
  shouldRefreshOf req || !jsTruthyStr s.cachedImage
    || decide (currentTime - s.lastFetchTime > cacheDuration)

/-- The options built by the request-triggered refresh (server.js lines
121-127): the query is a fresh random candidate (the request's `query`
parameter is not consulted); orientation, size and color come from the
request with the handler's defaults. -/
def requestOpts (req : ImageRequest) (idx : Nat) : FetchOptions :=
  { query := musicQueries.getD (idx % musicQueries.length) ""
    orientation := req.orientation.getD "landscape"
    size := req.size.getD "large2x"
    color := req.color.getD "" }

/-- The JSON bodies of `/api/music-image`.  `ok` is the success envelope
(server.js lines 138-144; `lastUpdated` embedded as the millisecond value
rendered to ISO-8601 by the source), `err` the catch-branch envelope
(lines 146-151). -/
inductive ImageResponse where
  | ok (imageUrl : Option String) (queryUsed : String) (cached : Bool) (lastUpdated : Int)
  | err (error : String) (cachedImageAvailable : Bool) (cachedImageUrl : Option String)
deriving DecidableEq, Repr

/-- HTTP status of an `ImageResponse`: `res.json` defaults to 200, the
catch branch uses `res.status(500)`. -/
def ImageResponse.statusCode : ImageResponse → Nat
  | .ok .. => 200
  | .err .. => 500

/-- The `success` field of the envelope. -/
def ImageResponse.successField : ImageResponse → Bool
  | .ok .. => true
  | .err .. => false

/-- The `imageUrl` field, `none` when the envelope has no such field. -/
def ImageResponse.imageUrlField : ImageResponse → Option (Option String)
  | .ok u _ _ _ => some u
  | .err .. => none

/-- The `queryUsed` field, `none` when the envelope has no such field. -/
def ImageResponse.queryUsedField : ImageResponse → Option String
  | .ok _ q _ _ => some q
  | .err .. => none

/-- The `cached` field, `none` when the envelope has no such field. -/
def ImageResponse.cachedField : ImageResponse → Option Bool
  | .ok _ _ c _ => some c
  | .err .. => none

/-- The `error` field, `none` when the envelope has no such field. -/
def ImageResponse.errorField : ImageResponse → Option String
  | .ok .. => none
  | .err e _ _ => some e

/-- The `cachedImageAvailable` field of the error envelope. -/
def ImageResponse.cachedImageAvailableField : ImageResponse → Option Bool
  | .ok .. => none
  | .err _ a _ => some a

/-- The `cachedImageUrl` field of the error envelope. -/
def ImageResponse.cachedImageUrlField : ImageResponse → Option (Option String)
  | .ok .. => none
  | .err _ _ u => some u

/-- The success envelope built at server.js lines 138-144 from the current
slot: `cached: !shouldRefresh && (currentTime - lastFetchTime) <= cacheDuration`. -/
def successResponse (shouldRefresh : Bool) (currentTime : Int) (s : CacheState) : ImageResponse :=
  .ok s.cachedImage s.lastQueryUsed
    (!shouldRefresh && decide (currentTime - s.lastFetchTime ≤ cacheDuration))
    s.lastFetchTime

/-- Everything observable about one run of the `/api/music-image` handler:
the slot after the run, the response, how many outbound Pexels calls were
made, and the options of the call when one was made. -/
structure HandlerResult where
  state : CacheState
  response : ImageResponse
  calls : Nat
  fetchedWith : Option FetchOptions
deriving DecidableEq, Repr

/-- The `/api/music-image` handler (server.js lines 106-153).  `idx` is the
random index drawn at line 121, `currentTime` is `Date.now()` (line 116),
`outcome` is the behaviour of the one possible Pexels call.  On a needed
refresh: a truthy fetched url overwrites the whole slot; otherwise, with a
truthy existing slot the handler falls through to the success envelope,
and with an empty slot it throws `Failed to fetch initial image`, caught
at lines 145-152. -/
def musicImageHandler (req : ImageRequest) (idx : Nat) (outcome : FetchOutcome)
    (currentTime : Int) (s : CacheState) : HandlerResult :=
  let shouldRefresh := shouldRefreshOf req
  if refreshNeeded req currentTime s then
    let opts := requestOpts req idx
    let newImage := fetchMusicImage opts outcome
    if jsTruthyStr newImage.imageUrl then
      let s2 : CacheState :=
        { cachedImage := newImage.imageUrl, lastFetchTime := currentTime
          lastQueryUsed := opts.query }
      { state := s2, response := successResponse shouldRefresh currentTime s2
        calls := 1, fetchedWith := some opts }
    else if jsTruthyStr s.cachedImage then
      { state := s, response := successResponse shouldRefresh currentTime s
        calls := 1, fetchedWith := some opts }
    else
      { state := s
        response := .err "Failed to fetch initial image"
          (jsTruthyStr s.cachedImage) (jsOrNull s.cachedImage)
        calls := 1, fetchedWith := some opts }
  else
    { state := s, response := successResponse shouldRefresh currentTime s
      calls := 0, fetchedWith := none }

/-- A mutation event on the shared cache slot: the timer callback or one
request to `/api/music-image`. -/
inductive Event where
  | timer (idx : Nat) (outcome : FetchOutcome) (now : Int)
  | request (req : ImageRequest) (idx : Nat) (outcome : FetchOutcome) (now : Int)
deriving DecidableEq, Repr

/-- The fetch options an event would use for its (single possible) Pexels
call. -/
def Event.optsUsed : Event → FetchOptions
  | .timer idx _ _ => timerOpts idx
  | .request req idx _ _ => requestOpts req idx

/-- The network outcome of the event. -/
def Event.outcome : Event → FetchOutcome
  | .timer _ o _ => o
  | .request _ _ o _ => o

/-- The event's `Date.now()` value. -/
def Event.now : Event → Int
  | .timer _ _ n => n
  | .request _ _ _ n => n

/-- The slot after an event: the timer runs `refreshImage`, a request runs
the handler; both are the only writers of the slot. -/
def step (s : CacheState) : Event → CacheState
  | .timer idx o now => refreshImage idx o now s
  | .request req idx o now => (musicImageHandler req idx o now s).state

/-- One page of a cursor-paginated upstream envelope: an item array `data`
and a `next` cursor (`none` embeds both `null` and an absent field). -/
structure Page (α : Type) where
  data : List α
  next : Option String
deriving DecidableEq, Repr

/-- What the network did for one page request of the pagination loop.
`badContentType` is the non-JSON Content-Type case: the playlists route
throws on it explicitly, the top-tracks route fails on it when
`response.json()` throws; both surface as the catch branch. -/
inductive PageResp (α : Type) where
  | transportError
  | badContentType
  | httpError (status : Nat)
  | ok (page : Page α)
deriving DecidableEq, Repr

/-- Result of draining the pagination loop: `fail` is the catch branch
(responded as a 500 with no partial list), `done` carries the accumulated
items and the number of outbound calls made. -/
inductive PagOutcome (α : Type) where
  | fail
  | done (items : List α) (calls : Nat)
deriving DecidableEq, Repr

/-- The `while (nextUrl)` loop shared by `/api/artist/:id/playlists`
(server.js lines 554-571) and `/api/artist/:id/top` (lines 612-624):
fetch the cursor, append `data.data`, continue with `data.next || null`.
The source has no iteration cap; `fuel` bounds the recursion, and `none`
marks fuel exhaustion (the source would still be looping). -/
def paginateAux {α : Type} (upstream : String → PageResp α) :
    Nat → Option String → List α → Nat → Option (PagOutcome α)
  | _, none, acc, calls => some (.done acc calls)
  | fuel, some url, acc, calls =>
    if url = "" then some (.done acc calls)
    else
      match fuel with
      | 0 => none
      | fuel + 1 =>
        match upstream url with
        | .ok page => paginateAux upstream fuel (jsOrNull page.next) (acc ++ page.data) (calls + 1)
        | _ => some .fail

/-- Drain the paginated collection starting from a base URL. -/
def paginate {α : Type} (upstream : String → PageResp α) (fuel : Nat) (url : String) :
    Option (PagOutcome α) :=
  paginateAux upstream fuel (some url) [] 0

/-- Base URL of `/api/artist/:id/playlists` (server.js line 552). -/
def artistPlaylistsUrl (id : String) : String :=
  "https://api.deezer.com/artist/" ++ id ++ "/playlists"

/-- Base URL of `/api/artist/:id/top` (server.js line 610). -/
def artistTopUrl (id : String) : String :=
  "https://api.deezer.com/artist/" ++ id ++ "/top?limit=50"

/-- The pagination work of the `/api/artist/:id/playlists` handler. -/
def artistPlaylistsHandler {α : Type} (id : String) (upstream : String → PageResp α)
    (fuel : Nat) : Option (PagOutcome α) :=
  paginate upstream fuel (artistPlaylistsUrl id)

/-- The pagination work of the `/api/artist/:id/top` handler. -/
def artistTopHandler {α : Type} (id : String) (upstream : String → PageResp α)
    (fuel : Nat) : Option (PagOutcome α) :=
  paginate upstream fuel (artistTopUrl id)

/-- The upstream artist object inside a track; `link` stands for the extra
upstream fields that the flattening route drops. -/
structure ArtistIn where
  id : Nat
  name : String
  link : String
deriving DecidableEq, Repr

/-- The upstream album object inside a track; `cover_big` stands for the
extra upstream fields that the flattening route drops. -/
structure AlbumIn where
  id : Nat
  title : String
  cover_small : String
  cover_medium : String
  cover_big : String
deriving DecidableEq, Repr

/-- An upstream track of the `/playlist/:id/tracks` body; `rank` stands
for the extra upstream fields that the flattening route drops. -/
structure TrackIn where
  id : Nat
  title : String
  duration : Nat
  rank : Nat
  artist : ArtistIn
  album : AlbumIn
  preview : String
deriving DecidableEq, Repr

/-- The projected artist object of the flattened response. -/
structure ArtistOut where
  id : Nat
  name : String
deriving DecidableEq, Repr

/-- The projected album object of the flattened response. -/
structure AlbumOut where
  id : Nat
  title : String
  cover_small : String
  cover_medium : String
deriving DecidableEq, Repr

/-- One flattened track: exactly the six documented fields
(server.js lines 270-285). -/
structure TrackOut where
  id : Nat
  title : String
  duration : Nat
  artist : ArtistOut
  album : AlbumOut
  preview : String
deriving DecidableEq, Repr

/-- The per-track projection of `/api/playlist-tracks`
(server.js lines 270-285). -/
def formatTrack (t : TrackIn) : TrackOut :=
  { id := t.id
    title := t.title
    duration := t.duration
    artist := { id := t.artist.id, name := t.artist.name }
    album := { id := t.album.id, title := t.album.title
               cover_small := t.album.cover_small
               cover_medium := t.album.cover_medium }
    preview := t.preview }

/-- What the network did for the `/playlist/:id/tracks` upstream call. -/
inductive TracksUpstream where
  | transportError
  | httpError (status : Nat)
  | ok (data : List TrackIn)
deriving DecidableEq, Repr

/-- The `/api/playlist-tracks` handler (server.js lines 252-293): a falsy
`id` query parameter yields a 400 before any outbound call; an upstream
failure yields the catch branch 500; success maps the upstream `data`
array through the projection and wraps it as `{ tracks: ... }`. -/
def playlistTracksHandler (id : Option String) (resp : TracksUpstream) :
    Except (Nat × String) (List TrackOut) :=
  if !jsTruthyStr id then .error (400, "Playlist ID is required")
  else
    match resp with
    | .ok data => .ok (data.map formatTrack)
    | _ => .error (500, "Failed to fetch playlist tracks")

/-- A JavaScript number that is either finite (a rational) or NaN
(`none`).  Infinities cannot arise in the estimator: the only division
with a possibly-zero denominator has a zero numerator there. -/
abbrev JsNum := Option ℚ

/-- `(b - 128) / 128`: a byte mapped to a signed sample
(audio module line 111). -/
def sampleVal (b : Nat) : ℚ := ((b : ℚ) - 128) / 128

/-- `start = band * samplesPerBand` with
`samplesPerBand = Math.floor(data.length / 32)` (audio module lines 102, 106). -/
def sliceStart (len band : Nat) : Nat := band * (len / 32)

/-- `end = Math.min(start + samplesPerBand, data.length)`
(audio module line 107). -/
def sliceStop (len band : Nat) : Nat := min (sliceStart len band + len / 32) len

/-- Byte index `i` lies in the slice of `band`. -/
def inSlice (len band i : Nat) : Prop :=
  sliceStart len band ≤ i ∧ i < sliceStop len band

instance (len band i : Nat) : Decidable (inSlice len band i) := by
  unfold inSlice; infer_instance

/-- How many of the 32 bands evaluate `energy / (end - start)` with a zero
denominator. -/
def zeroDenomBands (len : Nat) : Nat :=
  ((List.range 32).filter fun band => sliceStop len band - sliceStart len band == 0).length

/-- The loop `for (i = start; i < end; i++) energy += Math.abs(sample)`
(audio module lines 109-113). -/
def sliceEnergy (data : List Nat) (start stop : Nat) : ℚ :=
  (((data.drop start).take (stop - start)).map fun b => |sampleVal b|).sum

/-- `Math.max` of two values; any NaN operand gives NaN. -/
def jsMax2 (a b : JsNum) : JsNum :=
  match a, b with
  | some x, some y => some (max x y)
  | _, _ => none

/-- `Math.max(...results)` over the (always non-empty) results array. -/
def jsMaxList : List JsNum → JsNum
  | [] => none
  | x :: xs => xs.foldl jsMax2 x

/-- `max > 0`: false when `max` is NaN, as in JavaScript. -/
def jsGtZero : JsNum → Bool
  | some x => decide (0 < x)
  | none => false

/-- `val / max` in the normalization map.  The call is guarded by
`max > 0`, so the divisor is a positive finite number there. -/
def jsDivByMax (v mx : JsNum) : JsNum :=
  match v, mx with
  | some x, some y => some (x / y)
  | _, _ => none

/-- The record returned by `analyzeAudioBuffer`
(audio module lines 120-124). -/
structure AudioAnalysis where
  frequencies : List JsNum
  sampleRate : ℚ
  duration : ℚ
deriving DecidableEq, Repr

/-- `analyzeAudioBuffer` (audio module lines 95-125) over the byte buffer.
Each band sums the absolute samples `(b-128)/128` over its slice and divides by
`end - start`; when the slice is empty that is the JavaScript division
`0 / 0 = NaN`, embedded as `none`.  The vector is divided by its maximum
only when `max > 0`. -/
def analyzeAudioBuffer (data : List Nat) : AudioAnalysis :=
  let results : List JsNum := (List.range 32).map fun band =>
    let start := sliceStart data.length band
    let stop := sliceStop data.length band
    if stop - start = 0 then none
    else some (sliceEnergy data start stop / ((stop - start : ℕ) : ℚ))
  let mx := jsMaxList results
  { frequencies := if jsGtZero mx then results.map (fun v => jsDivByMax v mx) else results
    sampleRate := 44100
    duration := (data.length : ℚ) / 44100 }

lemma jsTruthyStr_eq_true_iff (x : Option String) :
    jsTruthyStr x = true ↔ ∃ u, x = some u ∧ u ≠ "" := by
  cases x <;> simp [jsTruthyStr]

lemma jsOrNull_eq_some (x : Option String) (u : String) :
    jsOrNull x = some u ↔ x = some u ∧ u ≠ "" := by
  constructor
  · intro h
    cases x with
    | none => simp [jsOrNull] at h
    | some s =>
      by_cases hs : s = ""
      · simp [jsOrNull, hs] at h
      · simp [jsOrNull, hs] at h
        exact ⟨by rw [h], by rw [← h]; exact hs⟩
  · rintro ⟨rfl, hu⟩
    simp [jsOrNull, hu]

lemma jsTruthyStr_some_of_ne (u : String) (hu : u ≠ "") : jsTruthyStr (some u) = true := by
  simp [jsTruthyStr, hu]

lemma jsOrNull_eq_none_of_falsy (x : Option String) (h : jsTruthyStr x = false) :
    jsOrNull x = none := by
  cases x with
  | none => rfl
  | some s =>
    have hs : s = "" := by simpa [jsTruthyStr] using h
    simp [jsOrNull, hs]

lemma musicImageHandler_no_refresh (req : ImageRequest) (idx : Nat) (outcome : FetchOutcome)
    (t : Int) (s : CacheState) (h : refreshNeeded req t s = false) :
    musicImageHandler req idx outcome t s
      = { state := s, response := successResponse (shouldRefreshOf req) t s
          calls := 0, fetchedWith := none } := by
  simp [musicImageHandler, h]

lemma musicImageHandler_refresh_success (req : ImageRequest) (idx : Nat)
    (outcome : FetchOutcome) (t : Int) (s : CacheState)
    (h : refreshNeeded req t s = true)
    (hft : jsTruthyStr (fetchMusicImage (requestOpts req idx) outcome).imageUrl = true) :
    musicImageHandler req idx outcome t s
      = { state := { cachedImage := (fetchMusicImage (requestOpts req idx) outcome).imageUrl
                     lastFetchTime := t, lastQueryUsed := (requestOpts req idx).query }
          response := successResponse (shouldRefreshOf req) t
            { cachedImage := (fetchMusicImage (requestOpts req idx) outcome).imageUrl
              lastFetchTime := t, lastQueryUsed := (requestOpts req idx).query }
          calls := 1, fetchedWith := some (requestOpts req idx) } := by
  simp [musicImageHandler, h, hft]

lemma musicImageHandler_refresh_fail_stale (req : ImageRequest) (idx : Nat)
    (outcome : FetchOutcome) (t : Int) (s : CacheState)
    (h : refreshNeeded req t s = true)
    (hft : jsTruthyStr (fetchMusicImage (requestOpts req idx) outcome).imageUrl = false)
    (hct : jsTruthyStr s.cachedImage = true) :
    musicImageHandler req idx outcome t s
      = { state := s, response := successResponse (shouldRefreshOf req) t s
          calls := 1, fetchedWith := some (requestOpts req idx) } := by
  simp [musicImageHandler, h, hft, hct]

lemma musicImageHandler_refresh_fail_empty (req : ImageRequest) (idx : Nat)
    (outcome : FetchOutcome) (t : Int) (s : CacheState)
    (h : refreshNeeded req t s = true)
    (hft : jsTruthyStr (fetchMusicImage (requestOpts req idx) outcome).imageUrl = false)
    (hct : jsTruthyStr s.cachedImage = false) :
    musicImageHandler req idx outcome t s
      = { state := s
          response := .err "Failed to fetch initial image" false none
          calls := 1, fetchedWith := some (requestOpts req idx) } := by
  simp [musicImageHandler, h, hft, hct, jsOrNull_eq_none_of_falsy s.cachedImage hct]

lemma sliceStop_bands_eq (len b : Nat) (hb : b < 32) :
    sliceStop len b = sliceStart len b + len / 32 := by
  have h1 : (b + 1) * (len / 32) ≤ 32 * (len / 32) :=
    mul_le_mul_right' hb (len / 32)
  have hlen : 32 * (len / 32) ≤ len := by
    rw [mul_comm]; exact Nat.div_mul_le_self len 32
  have h2 : b * (len / 32) + len / 32 ≤ len := by
    calc b * (len / 32) + len / 32 = (b + 1) * (len / 32) := by ring
      _ ≤ 32 * (len / 32) := h1
      _ ≤ len := hlen
  unfold sliceStop sliceStart
  exact Nat.min_eq_left h2

/-- Claim C6 (code bug): on an empty buffer each of the 32 bands evaluates
`energy / (end - start)` with `end - start = 0`, a JavaScript `0 / 0 = NaN`
division; the frequency vector is 32 NaN values, not the 32 zeros the
claim requires. -/
theorem c6_empty_buffer_divides_by_zero :
    zeroDenomBands 0 = 32
    ∧ (analyzeAudioBuffer []).frequencies = List.replicate 32 (none : JsNum)
    ∧ (analyzeAudioBuffer []).frequencies ≠ List.replicate 32 (some (0 : ℚ))
    ∧ (analyzeAudioBuffer []).duration = 0 :=
  ⟨by decide, by decide, by decide, by simp [analyzeAudioBuffer]⟩

/-- Claim C7 (counterexample): on a 33-byte buffer the slice length is
`33 / 32 = 1`, the final slice stops at byte 32 rather than running to the
buffer end, and byte index 32 lies in no slice — so not every byte
contributes to a slice. -/
theorem c7_counterexample :
    (33 : Nat) / 32 = 1
    ∧ sliceStop 33 31 = 32
    ∧ (32 : Nat) ≠ 33
    ∧ (∀ band, band < 32 → ¬ inSlice 33 band 32) := by decide

/-- Claim C7 (amended): the estimator cuts 32 contiguous slices each of
length exactly `⌊len / 32⌋` (the `min` cap never binds), covering exactly
the first `32 * ⌊len / 32⌋` bytes: each such byte lies in exactly one
slice, and the trailing `len mod 32` bytes lie in no slice. -/
theorem c7_amended (len i band : Nat) (hband : band < 32) :
    sliceStop len band = sliceStart len band + len / 32
    ∧ (inSlice len band i → i < 32 * (len / 32))
    ∧ (i < 32 * (len / 32) → ∃ b, b < 32 ∧ inSlice len b i)
    ∧ (∀ b2, b2 < 32 → inSlice len band i → inSlice len b2 i → band = b2) := by
  refine ⟨sliceStop_bands_eq len band hband, ?_, ?_, ?_⟩
  · rintro ⟨-, h2⟩
    rw [sliceStop_bands_eq len band hband] at h2
    simp only [sliceStart] at h2
    calc i < band * (len / 32) + len / 32 := h2
      _ = (band + 1) * (len / 32) := by ring
      _ ≤ 32 * (len / 32) := mul_le_mul_right' hband (len / 32)
  · intro hi
    have hspb : 0 < len / 32 := by
      rcases Nat.eq_zero_or_pos (len / 32) with h | h
      · rw [h] at hi; omega
      · exact h
    have hb : i / (len / 32) < 32 := (Nat.div_lt_iff_lt_mul hspb).2 hi
    refine ⟨i / (len / 32), hb, ?_, ?_⟩
    · show sliceStart len (i / (len / 32)) ≤ i
      simp only [sliceStart]
      exact Nat.div_mul_le_self i (len / 32)
    · rw [sliceStop_bands_eq len _ hb]
      simp only [sliceStart]
      exact Nat.lt_div_mul_add hspb
  · intro b2 hb2 h1 h2
    obtain ⟨h1a, h1b⟩ := h1
    obtain ⟨h2a, h2b⟩ := h2
    rw [sliceStop_bands_eq len band hband] at h1b
    rw [sliceStop_bands_eq len b2 hb2] at h2b
    simp only [sliceStart] at h1a h1b h2a h2b
    have key : ∀ a b : Nat, a < b → b * (len / 32) ≤ i →
        i < a * (len / 32) + len / 32 → False := by
      intro a b hab hble hlt
      have h3 : i < b * (len / 32) := by
        calc i < a * (len / 32) + len / 32 := hlt
          _ = (a + 1) * (len / 32) := by ring
          _ ≤ b * (len / 32) := mul_le_mul_right' hab (len / 32)
      exact Nat.lt_irrefl i (lt_of_lt_of_le h3 hble)
    rcases Nat.lt_trichotomy band b2 with h | h | h
    · exact (key band b2 h h2a h1b).elim
    · exact h
    · exact (key b2 band h h1a h2b).elim

theorem c7_amended_witness : ∃ b, b < 32 ∧ inSlice 64 b 5 :=
  (c7_amended 64 5 0 (by decide)).2.2.1 (by decide)

/-- Claim C1 (counterexample): a forced-refresh request whose upstream
fetch fails while the slot holds a prior url is answered 200 with the
stale url, a success envelope and no error field — but its `cached`
marker is `false`, not the `true` the claim requires, because the source
computes `cached` as `!shouldRefresh && age <= cacheDuration`. -/
theorem c1_counterexample :
    let r := musicImageHandler ⟨none, none, none, none, some "true"⟩ 0 .networkError 0
      { cachedImage := some "https://img.example/a.jpg", lastFetchTime := 0, lastQueryUsed := "q" }
    r.response.statusCode = 200
    ∧ r.response.imageUrlField = some (some "https://img.example/a.jpg")
    ∧ r.response.errorField = none
    ∧ r.response.cachedField = some false
    ∧ r.response.cachedField ≠ some true := by decide

/-- Claim C2 (counterexample): the first request on an empty slot with a
successful fetch makes one outbound call but answers `cached: true`, not
the `cached: false` the claim requires — the slot timestamp has just been
set to the request's own `currentTime`, so `age = 0 <= cacheDuration`. -/
theorem c2_counterexample :
    let r := musicImageHandler ⟨none, none, none, none, none⟩ 0
      (.ok [{ src := [("large2x", "https://img.example/a.jpg")] }]) 1000
      { cachedImage := none, lastFetchTime := 0, lastQueryUsed := "" }
    r.calls = 1
    ∧ r.response.cachedField = some true
    ∧ r.response.cachedField ≠ some false := by decide

/-- Claim C3 (counterexample): a request that supplies `query=jazz` and
triggers the refresh path is fetched with the random candidate query
(`musicQueries[0] = "music concert"` here), not with the request's query —
the handler never reads a `query` parameter. -/
theorem c3_counterexample :
    let req : ImageRequest := ⟨some "jazz", none, none, none, none⟩
    let r := musicImageHandler req 0 .networkError 0
      { cachedImage := none, lastFetchTime := 0, lastQueryUsed := "" }
    req.query = some "jazz"
    ∧ (r.fetchedWith.map FetchOptions.query) = some "music concert"
    ∧ (r.fetchedWith.map FetchOptions.query) ≠ some "jazz" := by decide

/-- Claim C1 (amended): on a forced-refresh request whose upstream fetch
yields no truthy image URL while the slot holds a prior non-empty url, the
handler answers 200 with the stale url in a success envelope with no error
field and leaves the slot untouched; the `cached` marker, computed as
`!shouldRefresh && age <= cacheDuration`, is `false` on every forced
refresh — not `true`. -/
theorem c1_amended (req : ImageRequest) (idx : Nat) (outcome : FetchOutcome)
    (t : Int) (s : CacheState) (u : String)
    (hforce : shouldRefreshOf req = true)
    (hfail : jsTruthyStr (fetchMusicImage (requestOpts req idx) outcome).imageUrl = false)
    (hslot : s.cachedImage = some u) (hu : u ≠ "") :
    (musicImageHandler req idx outcome t s).response.statusCode = 200
    ∧ (musicImageHandler req idx outcome t s).response.successField = true
    ∧ (musicImageHandler req idx outcome t s).response.imageUrlField = some (some u)
    ∧ (musicImageHandler req idx outcome t s).response.errorField = none
    ∧ (musicImageHandler req idx outcome t s).response.cachedField = some false
    ∧ (musicImageHandler req idx outcome t s).state = s := by
  have hct : jsTruthyStr s.cachedImage = true := by
    rw [hslot]; exact jsTruthyStr_some_of_ne u hu
  have hneed : refreshNeeded req t s = true := by
    simp [refreshNeeded, hforce]
  rw [musicImageHandler_refresh_fail_stale req idx outcome t s hneed hfail hct]
  simp [successResponse, hforce, hslot, ImageResponse.statusCode, ImageResponse.successField,
    ImageResponse.imageUrlField, ImageResponse.errorField, ImageResponse.cachedField]

theorem c1_amended_witness :
    (musicImageHandler ⟨none, none, none, none, some "TRUE"⟩ 1 (.ok []) 99
        { cachedImage := some "https://stale.example/b.jpg", lastFetchTime := 0
          lastQueryUsed := "p" }).response.statusCode = 200
    ∧ (musicImageHandler ⟨none, none, none, none, some "TRUE"⟩ 1 (.ok []) 99
        { cachedImage := some "https://stale.example/b.jpg", lastFetchTime := 0
          lastQueryUsed := "p" }).response.successField = true
    ∧ (musicImageHandler ⟨none, none, none, none, some "TRUE"⟩ 1 (.ok []) 99
        { cachedImage := some "https://stale.example/b.jpg", lastFetchTime := 0
          lastQueryUsed := "p" }).response.imageUrlField
        = some (some "https://stale.example/b.jpg")
    ∧ (musicImageHandler ⟨none, none, none, none, some "TRUE"⟩ 1 (.ok []) 99
        { cachedImage := some "https://stale.example/b.jpg", lastFetchTime := 0
          lastQueryUsed := "p" }).response.errorField = none
    ∧ (musicImageHandler ⟨none, none, none, none, some "TRUE"⟩ 1 (.ok []) 99
        { cachedImage := some "https://stale.example/b.jpg", lastFetchTime := 0
          lastQueryUsed := "p" }).response.cachedField = some false
    ∧ (musicImageHandler ⟨none, none, none, none, some "TRUE"⟩ 1 (.ok []) 99
        { cachedImage := some "https://stale.example/b.jpg", lastFetchTime := 0
          lastQueryUsed := "p" }).state
        = { cachedImage := some "https://stale.example/b.jpg", lastFetchTime := 0
            lastQueryUsed := "p" } :=
  c1_amended ⟨none, none, none, none, some "TRUE"⟩ 1 (.ok []) 99
    { cachedImage := some "https://stale.example/b.jpg", lastFetchTime := 0
      lastQueryUsed := "p" }
    "https://stale.example/b.jpg" (by decide) (by decide) rfl (by decide)

/-- Claim C9: when the slot is empty and the synchronous refresh yields no
truthy image URL, the handler answers 500 with `success: false`, the error
message, `cachedImageAvailable: false` and `cachedImageUrl: null`, leaving
the slot unchanged. -/
theorem c9_empty_slot_refresh_failure (req : ImageRequest) (idx : Nat)
    (outcome : FetchOutcome) (t : Int) (s : CacheState)
    (hempty : s.cachedImage = none)
    (hfail : jsTruthyStr (fetchMusicImage (requestOpts req idx) outcome).imageUrl = false) :
    (musicImageHandler req idx outcome t s).response.statusCode = 500
    ∧ (musicImageHandler req idx outcome t s).response.successField = false
    ∧ (musicImageHandler req idx outcome t s).response.errorField
        = some "Failed to fetch initial image"
    ∧ (musicImageHandler req idx outcome t s).response.cachedImageAvailableField = some false
    ∧ (musicImageHandler req idx outcome t s).response.cachedImageUrlField = some none
    ∧ (musicImageHandler req idx outcome t s).state = s
    ∧ (musicImageHandler req idx outcome t s).calls = 1 := by
  have hct : jsTruthyStr s.cachedImage = false := by rw [hempty]; rfl
  have hneed : refreshNeeded req t s = true := by
    simp [refreshNeeded, hct]
  rw [musicImageHandler_refresh_fail_empty req idx outcome t s hneed hfail hct]
  simp [ImageResponse.statusCode, ImageResponse.successField, ImageResponse.errorField,
    ImageResponse.cachedImageAvailableField, ImageResponse.cachedImageUrlField]

theorem c9_empty_slot_refresh_failure_witness :
    (musicImageHandler ⟨none, none, none, none, none⟩ 0 .networkError 7
        { cachedImage := none, lastFetchTime := 0, lastQueryUsed := "" }).response.statusCode = 500
    ∧ (musicImageHandler ⟨none, none, none, none, none⟩ 0 .networkError 7
        { cachedImage := none, lastFetchTime := 0, lastQueryUsed := "" }).response.successField = false
    ∧ (musicImageHandler ⟨none, none, none, none, none⟩ 0 .networkError 7
        { cachedImage := none, lastFetchTime := 0, lastQueryUsed := "" }).response.errorField
        = some "Failed to fetch initial image"
    ∧ (musicImageHandler ⟨none, none, none, none, none⟩ 0 .networkError 7
        { cachedImage := none, lastFetchTime := 0, lastQueryUsed := "" }).response.cachedImageAvailableField
        = some false
    ∧ (musicImageHandler ⟨none, none, none, none, none⟩ 0 .networkError 7
        { cachedImage := none, lastFetchTime := 0, lastQueryUsed := "" }).response.cachedImageUrlField
        = some none
    ∧ (musicImageHandler ⟨none, none, none, none, none⟩ 0 .networkError 7
        { cachedImage := none, lastFetchTime := 0, lastQueryUsed := "" }).state
        = { cachedImage := none, lastFetchTime := 0, lastQueryUsed := "" }
    ∧ (musicImageHandler ⟨none, none, none, none, none⟩ 0 .networkError 7
        { cachedImage := none, lastFetchTime := 0, lastQueryUsed := "" }).calls = 1 :=
  c9_empty_slot_refresh_failure ⟨none, none, none, none, none⟩ 0 .networkError 7
    { cachedImage := none, lastFetchTime := 0, lastQueryUsed := "" } rfl (by decide)

/-- Claim C2 (amended): from an empty slot, the first request (no forced
refresh) makes exactly one outbound call and fills the slot with the
request's own time — and because the `cached` flag is computed after the
slot update as `!shouldRefresh && age <= cacheDuration` with `age = 0`,
its response says `cached: true`, not `false`.  A second request within
the cache duration makes zero outbound calls, serves the same url with
`cached: true`, and leaves the slot unchanged.  A request after the cache
duration (with a successful fetch) makes exactly one new outbound call
and updates the slot's timestamp. -/
theorem c2_amended (req1 req2 req3 : ImageRequest) (idx1 idx2 idx3 : Nat)
    (o1 o2 o3 : FetchOutcome) (t1 t2 t3 : Int) (s0 : CacheState) (u1 u3 : String)
    (hr1 : shouldRefreshOf req1 = false) (hr2 : shouldRefreshOf req2 = false)
    (hempty : s0.cachedImage = none)
    (h1 : (fetchMusicImage (requestOpts req1 idx1) o1).imageUrl = some u1) (hu1 : u1 ≠ "")
    (h2 : t2 - t1 ≤ cacheDuration)
    (h3 : t3 - t1 > cacheDuration)
    (h3s : (fetchMusicImage (requestOpts req3 idx3) o3).imageUrl = some u3) (hu3 : u3 ≠ "") :
    (musicImageHandler req1 idx1 o1 t1 s0).calls = 1
    ∧ (musicImageHandler req1 idx1 o1 t1 s0).response.cachedField = some true
    ∧ (musicImageHandler req1 idx1 o1 t1 s0).state.cachedImage = some u1
    ∧ (musicImageHandler req1 idx1 o1 t1 s0).state.lastFetchTime = t1
    ∧ (musicImageHandler req2 idx2 o2 t2 (musicImageHandler req1 idx1 o1 t1 s0).state).calls = 0
    ∧ (musicImageHandler req2 idx2 o2 t2
        (musicImageHandler req1 idx1 o1 t1 s0).state).response.imageUrlField = some (some u1)
    ∧ (musicImageHandler req2 idx2 o2 t2
        (musicImageHandler req1 idx1 o1 t1 s0).state).response.cachedField = some true
    ∧ (musicImageHandler req2 idx2 o2 t2 (musicImageHandler req1 idx1 o1 t1 s0).state).state
        = (musicImageHandler req1 idx1 o1 t1 s0).state
    ∧ (musicImageHandler req3 idx3 o3 t3 (musicImageHandler req1 idx1 o1 t1 s0).state).calls = 1
    ∧ (musicImageHandler req3 idx3 o3 t3
        (musicImageHandler req1 idx1 o1 t1 s0).state).state.lastFetchTime = t3
    ∧ (musicImageHandler req3 idx3 o3 t3
        (musicImageHandler req1 idx1 o1 t1 s0).state).state.cachedImage = some u3 := by
  have hct0 : jsTruthyStr s0.cachedImage = false := by rw [hempty]; rfl
  have hneed1 : refreshNeeded req1 t1 s0 = true := by simp [refreshNeeded, hct0]
  have hft1 : jsTruthyStr (fetchMusicImage (requestOpts req1 idx1) o1).imageUrl = true := by
    rw [h1]; exact jsTruthyStr_some_of_ne u1 hu1
  have hh1 : musicImageHandler req1 idx1 o1 t1 s0
      = { state := { cachedImage := some u1, lastFetchTime := t1
                     lastQueryUsed := (requestOpts req1 idx1).query }
          response := successResponse (shouldRefreshOf req1) t1
            { cachedImage := some u1, lastFetchTime := t1
              lastQueryUsed := (requestOpts req1 idx1).query }
          calls := 1, fetchedWith := some (requestOpts req1 idx1) } := by
    rw [musicImageHandler_refresh_success req1 idx1 o1 t1 s0 hneed1 hft1, h1]
  have hneed2 : refreshNeeded req2 t2
      { cachedImage := some u1, lastFetchTime := t1
        lastQueryUsed := (requestOpts req1 idx1).query } = false := by
    have hd : decide (t2 - t1 > cacheDuration) = false := decide_eq_false (not_lt.2 h2)
    simp [refreshNeeded, hr2, jsTruthyStr_some_of_ne u1 hu1, hd]
  have hh2 := musicImageHandler_no_refresh req2 idx2 o2 t2
    { cachedImage := some u1, lastFetchTime := t1
      lastQueryUsed := (requestOpts req1 idx1).query } hneed2
  have hneed3 : refreshNeeded req3 t3
      { cachedImage := some u1, lastFetchTime := t1
        lastQueryUsed := (requestOpts req1 idx1).query } = true := by
    have hd : decide (t3 - t1 > cacheDuration) = true := decide_eq_true h3
    simp [refreshNeeded, hd]
  have hft3 : jsTruthyStr (fetchMusicImage (requestOpts req3 idx3) o3).imageUrl = true := by
    rw [h3s]; exact jsTruthyStr_some_of_ne u3 hu3
  have hh3 := musicImageHandler_refresh_success req3 idx3 o3 t3
    { cachedImage := some u1, lastFetchTime := t1
      lastQueryUsed := (requestOpts req1 idx1).query } hneed3 hft3
  have hd2 : decide (t2 - t1 ≤ cacheDuration) = true := decide_eq_true h2
  refine ⟨?_, ?_, ?_, ?_, ?_, ?_, ?_, ?_, ?_, ?_, ?_⟩
  · rw [hh1]
  · rw [hh1]
    simp [successResponse, hr1, ImageResponse.cachedField]
    norm_num [cacheDuration]
  · rw [hh1]
  · rw [hh1]
  · rw [hh1]; rw [hh2]
  · rw [hh1]; rw [hh2]
    simp [successResponse, ImageResponse.imageUrlField]
  · rw [hh1]; rw [hh2]
    simp [successResponse, hr2, ImageResponse.cachedField, hd2]
    linarith [h2]
  · rw [hh1]; rw [hh2]
  · rw [hh1]; rw [hh3, h3s]
  · rw [hh1]; rw [hh3, h3s]
  · rw [hh1]; rw [hh3, h3s]

theorem c2_amended_witness :
    (musicImageHandler ⟨none, none, none, none, none⟩ 0
        (.ok [{ src := [("large2x", "https://img.example/a.jpg")] }]) 0
        { cachedImage := none, lastFetchTime := 0, lastQueryUsed := "" }).calls = 1
    ∧ (musicImageHandler ⟨none, none, none, none, none⟩ 0
        (.ok [{ src := [("large2x", "https://img.example/a.jpg")] }]) 0
        { cachedImage := none, lastFetchTime := 0
          lastQueryUsed := "" }).response.cachedField = some true
    ∧ (musicImageHandler ⟨none, none, none, none, none⟩ 0
        (.ok [{ src := [("large2x", "https://img.example/a.jpg")] }]) 0
        { cachedImage := none, lastFetchTime := 0
          lastQueryUsed := "" }).state.cachedImage = some "https://img.example/a.jpg"
    ∧ (musicImageHandler ⟨none, none, none, none, none⟩ 0
        (.ok [{ src := [("large2x", "https://img.example/a.jpg")] }]) 0
        { cachedImage := none, lastFetchTime := 0
          lastQueryUsed := "" }).state.lastFetchTime = 0
    ∧ (musicImageHandler ⟨none, none, none, none, none⟩ 1 .networkError 60000
        (musicImageHandler ⟨none, none, none, none, none⟩ 0
          (.ok [{ src := [("large2x", "https://img.example/a.jpg")] }]) 0
          { cachedImage := none, lastFetchTime := 0, lastQueryUsed := "" }).state).calls = 0
    ∧ (musicImageHandler ⟨none, none, none, none, none⟩ 1 .networkError 60000
        (musicImageHandler ⟨none, none, none, none, none⟩ 0
          (.ok [{ src := [("large2x", "https://img.example/a.jpg")] }]) 0
          { cachedImage := none, lastFetchTime := 0
            lastQueryUsed := "" }).state).response.imageUrlField
        = some (some "https://img.example/a.jpg")
    ∧ (musicImageHandler ⟨none, none, none, none, none⟩ 1 .networkError 60000
        (musicImageHandler ⟨none, none, none, none, none⟩ 0
          (.ok [{ src := [("large2x", "https://img.example/a.jpg")] }]) 0
          { cachedImage := none, lastFetchTime := 0
            lastQueryUsed := "" }).state).response.cachedField = some true
    ∧ (musicImageHandler ⟨none, none, none, none, none⟩ 1 .networkError 60000
        (musicImageHandler ⟨none, none, none, none, none⟩ 0
          (.ok [{ src := [("large2x", "https://img.example/a.jpg")] }]) 0
          { cachedImage := none, lastFetchTime := 0, lastQueryUsed := "" }).state).state
        = (musicImageHandler ⟨none, none, none, none, none⟩ 0
            (.ok [{ src := [("large2x", "https://img.example/a.jpg")] }]) 0
            { cachedImage := none, lastFetchTime := 0, lastQueryUsed := "" }).state
    ∧ (musicImageHandler ⟨none, none, none, none, none⟩ 2
        (.ok [{ src := [("large2x", "https://img.example/c.jpg")] }]) 60001
        (musicImageHandler ⟨none, none, none, none, none⟩ 0
          (.ok [{ src := [("large2x", "https://img.example/a.jpg")] }]) 0
          { cachedImage := none, lastFetchTime := 0, lastQueryUsed := "" }).state).calls = 1
    ∧ (musicImageHandler ⟨none, none, none, none, none⟩ 2
        (.ok [{ src := [("large2x", "https://img.example/c.jpg")] }]) 60001
        (musicImageHandler ⟨none, none, none, none, none⟩ 0
          (.ok [{ src := [("large2x", "https://img.example/a.jpg")] }]) 0
          { cachedImage := none, lastFetchTime := 0
            lastQueryUsed := "" }).state).state.lastFetchTime = 60001
    ∧ (musicImageHandler ⟨none, none, none, none, none⟩ 2
        (.ok [{ src := [("large2x", "https://img.example/c.jpg")] }]) 60001
        (musicImageHandler ⟨none, none, none, none, none⟩ 0
          (.ok [{ src := [("large2x", "https://img.example/a.jpg")] }]) 0
          { cachedImage := none, lastFetchTime := 0
            lastQueryUsed := "" }).state).state.cachedImage = some "https://img.example/c.jpg" :=
  c2_amended ⟨none, none, none, none, none⟩ ⟨none, none, none, none, none⟩
    ⟨none, none, none, none, none⟩ 0 1 2
    (.ok [{ src := [("large2x", "https://img.example/a.jpg")] }]) .networkError
    (.ok [{ src := [("large2x", "https://img.example/c.jpg")] }]) 0 60000 60001
    { cachedImage := none, lastFetchTime := 0, lastQueryUsed := "" }
    "https://img.example/a.jpg" "https://img.example/c.jpg"
    (by decide) (by decide) rfl (by decide) (by decide) (by decide) (by decide)
    (by decide) (by decide)

/-- Claim C3 (amended): whenever the refresh path runs (forced refresh,
empty slot, or expired age) the synchronous refresh is performed with a
randomly chosen query from the fixed candidate list — the request's own
`query` parameter is never consulted — while orientation, size and color
do come from the request (with the handler's defaults); otherwise no
outbound call is made and the existing slot is served unchanged. -/
theorem c3_amended (req : ImageRequest) (idx : Nat) (outcome : FetchOutcome)
    (t : Int) (s : CacheState) :
    ((requestOpts req idx).query = musicQueries.getD (idx % musicQueries.length) ""
      ∧ (requestOpts req idx).orientation = req.orientation.getD "landscape"
      ∧ (requestOpts req idx).size = req.size.getD "large2x"
      ∧ (requestOpts req idx).color = req.color.getD "")
    ∧ (refreshNeeded req t s = true →
        (musicImageHandler req idx outcome t s).fetchedWith = some (requestOpts req idx)
        ∧ (musicImageHandler req idx outcome t s).calls = 1)
    ∧ (refreshNeeded req t s = false →
        (musicImageHandler req idx outcome t s).fetchedWith = none
        ∧ (musicImageHandler req idx outcome t s).calls = 0
        ∧ (musicImageHandler req idx outcome t s).state = s
        ∧ (musicImageHandler req idx outcome t s).response.imageUrlField = some s.cachedImage
        ∧ (musicImageHandler req idx outcome t s).response.queryUsedField
            = some s.lastQueryUsed) := by
  refine ⟨⟨rfl, rfl, rfl, rfl⟩, ?_, ?_⟩
  · intro h
    by_cases hft : jsTruthyStr (fetchMusicImage (requestOpts req idx) outcome).imageUrl = true
    · rw [musicImageHandler_refresh_success req idx outcome t s h hft]
      exact ⟨rfl, rfl⟩
    · have hftf : jsTruthyStr (fetchMusicImage (requestOpts req idx) outcome).imageUrl = false := by
        simpa [Bool.not_eq_true] using hft
      by_cases hct : jsTruthyStr s.cachedImage = true
      · rw [musicImageHandler_refresh_fail_stale req idx outcome t s h hftf hct]
        exact ⟨rfl, rfl⟩
      · have hctf : jsTruthyStr s.cachedImage = false := by
          simpa [Bool.not_eq_true] using hct
        rw [musicImageHandler_refresh_fail_empty req idx outcome t s h hftf hctf]
        exact ⟨rfl, rfl⟩
  · intro h
    rw [musicImageHandler_no_refresh req idx outcome t s h]
    exact ⟨rfl, rfl, rfl, rfl, rfl⟩

theorem c3_amended_witness :
    (musicImageHandler ⟨some "jazz", some "portrait", some "small", none, some "true"⟩ 0
        .networkError 5
        { cachedImage := none, lastFetchTime := 0, lastQueryUsed := "" }).fetchedWith
      = some (requestOpts ⟨some "jazz", some "portrait", some "small", none, some "true"⟩ 0)
    ∧ (musicImageHandler ⟨some "jazz", some "portrait", some "small", none, some "true"⟩ 0
        .networkError 5
        { cachedImage := none, lastFetchTime := 0, lastQueryUsed := "" }).calls = 1 :=
  (c3_amended ⟨some "jazz", some "portrait", some "small", none, some "true"⟩ 0
    .networkError 5 { cachedImage := none, lastFetchTime := 0, lastQueryUsed := "" }).2.1
    (by decide)

/-- Claim C4: each mutation of the cache slot — timer-triggered or
request-triggered — leaves all three slot variables unchanged whenever the
upstream fetch does not produce a truthy image URL, and any change writes
the whole slot at once with the fetched url, the event's query, and the
event's timestamp; the slot is never cleared. -/
theorem c4_cache_slot_invariant (s : CacheState) (e : Event) :
    (jsTruthyStr (fetchMusicImage e.optsUsed e.outcome).imageUrl = false → step s e = s)
    ∧ (step s e = s
        ∨ ∃ u, u ≠ "" ∧ (fetchMusicImage e.optsUsed e.outcome).imageUrl = some u
            ∧ step s e = { cachedImage := some u, lastFetchTime := e.now
                           lastQueryUsed := e.optsUsed.query })
    ∧ (s.cachedImage ≠ none → (step s e).cachedImage ≠ none) := by
  cases e with
  | timer idx o now =>
    by_cases h : jsTruthyStr (fetchMusicImage (timerOpts idx) o).imageUrl = true
    · obtain ⟨u, hu, hne⟩ := (jsTruthyStr_eq_true_iff _).1 h
      have hstep : step s (.timer idx o now)
          = { cachedImage := some u, lastFetchTime := now
              lastQueryUsed := (timerOpts idx).query } := by
        simp [step, refreshImage, hu, jsTruthyStr_some_of_ne u hne]
      refine ⟨?_, ?_, ?_⟩
      · intro hf
        simp [Event.optsUsed, Event.outcome, h] at hf
      · right
        exact ⟨u, hne, hu, hstep⟩
      · intro _
        rw [hstep]
        simp
    · have hf : jsTruthyStr (fetchMusicImage (timerOpts idx) o).imageUrl = false := by
        simpa [Bool.not_eq_true] using h
      have hstep : step s (.timer idx o now) = s := by
        simp [step, refreshImage, hf]
      exact ⟨fun _ => hstep, Or.inl hstep, fun hc => by rw [hstep]; exact hc⟩
  | request req idx o now =>
    by_cases hneed : refreshNeeded req now s = true
    · by_cases hft : jsTruthyStr (fetchMusicImage (requestOpts req idx) o).imageUrl = true
      · obtain ⟨u, hu, hne⟩ := (jsTruthyStr_eq_true_iff _).1 hft
        have hstep : step s (.request req idx o now)
            = { cachedImage := some u, lastFetchTime := now
                lastQueryUsed := (requestOpts req idx).query } := by
          simp [step, musicImageHandler_refresh_success req idx o now s hneed hft, hu]
        refine ⟨?_, ?_, ?_⟩
        · intro hf
          simp [Event.optsUsed, Event.outcome, hft] at hf
        · right
          exact ⟨u, hne, hu, hstep⟩
        · intro _
          rw [hstep]
          simp
      · have hftf : jsTruthyStr (fetchMusicImage (requestOpts req idx) o).imageUrl = false := by
          simpa [Bool.not_eq_true] using hft
        by_cases hct : jsTruthyStr s.cachedImage = true
        · have hstep : step s (.request req idx o now) = s := by
            simp [step, musicImageHandler_refresh_fail_stale req idx o now s hneed hftf hct]
          exact ⟨fun _ => hstep, Or.inl hstep, fun hc => by rw [hstep]; exact hc⟩
        · have hctf : jsTruthyStr s.cachedImage = false := by
            simpa [Bool.not_eq_true] using hct
          have hstep : step s (.request req idx o now) = s := by
            simp [step, musicImageHandler_refresh_fail_empty req idx o now s hneed hftf hctf]
          exact ⟨fun _ => hstep, Or.inl hstep, fun hc => by rw [hstep]; exact hc⟩
    · have hneedf : refreshNeeded req now s = false := by
        simpa [Bool.not_eq_true] using hneed
      have hstep : step s (.request req idx o now) = s := by
        simp [step, musicImageHandler_no_refresh req idx o now s hneedf]
      exact ⟨fun _ => hstep, Or.inl hstep, fun hc => by rw [hstep]; exact hc⟩

theorem c4_cache_slot_invariant_witness :
    step { cachedImage := some "https://img.example/a.jpg", lastFetchTime := 0
           lastQueryUsed := "q" } (.timer 0 .networkError 5)
      = { cachedImage := some "https://img.example/a.jpg", lastFetchTime := 0
          lastQueryUsed := "q" } :=
  (c4_cache_slot_invariant
    { cachedImage := some "https://img.example/a.jpg", lastFetchTime := 0
      lastQueryUsed := "q" } (.timer 0 .networkError 5)).1 (by decide)

/-- Claim C10: `fetchMusicImage` is total and never raises — on every
outcome it returns a record whose `queryUsed` is the requested query, with
`imageUrl` the fetched photo URL on success and `null` on any failure
(transport error, non-success status, or a body with no usable photo);
the timer-triggered refresh therefore always either leaves the slot alone
or writes the fetched value, and the image endpoint answers 500 only
through the explicit empty-slot error. -/
theorem c10_fetch_total_and_500_only_when_slot_empty
    (opts : FetchOptions) (outcome : FetchOutcome)
    (req : ImageRequest) (idx : Nat) (t : Int) (s : CacheState) :
    (fetchMusicImage opts outcome).queryUsed = opts.query
    ∧ ((fetchMusicImage opts outcome).imageUrl = none
        ∨ ∃ u photos p, u ≠ "" ∧ (fetchMusicImage opts outcome).imageUrl = some u
            ∧ outcome = .ok photos ∧ photos.head? = some p
            ∧ p.src.lookup opts.size = some u)
    ∧ (∀ i2 o2 n2, refreshImage i2 o2 n2 s = s
        ∨ ∃ u, (fetchMusicImage (timerOpts i2) o2).imageUrl = some u
            ∧ refreshImage i2 o2 n2 s
              = { cachedImage := some u, lastFetchTime := n2
                  lastQueryUsed := (timerOpts i2).query })
    ∧ ((musicImageHandler req idx outcome t s).response.statusCode = 500 →
        jsTruthyStr s.cachedImage = false
        ∧ jsTruthyStr (fetchMusicImage (requestOpts req idx) outcome).imageUrl = false
        ∧ (musicImageHandler req idx outcome t s).response.errorField
            = some "Failed to fetch initial image") := by
  refine ⟨?_, ?_, ?_, ?_⟩
  · cases outcome <;> rfl
  · cases outcome with
    | networkError => exact Or.inl rfl
    | httpError st => exact Or.inl rfl
    | ok photos =>
      rcases hj : jsOrNull (photos.head?.bind fun p => p.src.lookup opts.size) with _ | u
      · left
        simpa [fetchMusicImage] using hj
      · right
        obtain ⟨hbind, hu⟩ := (jsOrNull_eq_some _ _).1 hj
        obtain ⟨p, hp, hlk⟩ := Option.bind_eq_some.1 hbind
        exact ⟨u, photos, p, hu, by simpa [fetchMusicImage] using hj, rfl, hp, hlk⟩
  · intro i2 o2 n2
    by_cases h : jsTruthyStr (fetchMusicImage (timerOpts i2) o2).imageUrl = true
    · obtain ⟨u, hu, hne⟩ := (jsTruthyStr_eq_true_iff _).1 h
      right
      exact ⟨u, hu, by simp [refreshImage, hu, jsTruthyStr_some_of_ne u hne]⟩
    · left
      have hf : jsTruthyStr (fetchMusicImage (timerOpts i2) o2).imageUrl = false := by
        simpa [Bool.not_eq_true] using h
      simp [refreshImage, hf]
  · intro h500
    by_cases hneed : refreshNeeded req t s = true
    · by_cases hft : jsTruthyStr (fetchMusicImage (requestOpts req idx) outcome).imageUrl = true
      · rw [musicImageHandler_refresh_success req idx outcome t s hneed hft] at h500
        simp [successResponse, ImageResponse.statusCode] at h500
      · have hftf : jsTruthyStr (fetchMusicImage (requestOpts req idx) outcome).imageUrl
            = false := by
          simpa [Bool.not_eq_true] using hft
        by_cases hct : jsTruthyStr s.cachedImage = true
        · rw [musicImageHandler_refresh_fail_stale req idx outcome t s hneed hftf hct] at h500
          simp [successResponse, ImageResponse.statusCode] at h500
        · have hctf : jsTruthyStr s.cachedImage = false := by
            simpa [Bool.not_eq_true] using hct
          refine ⟨hctf, hftf, ?_⟩
          rw [musicImageHandler_refresh_fail_empty req idx outcome t s hneed hftf hctf]
          rfl
    · have hneedf : refreshNeeded req t s = false := by
        simpa [Bool.not_eq_true] using hneed
      rw [musicImageHandler_no_refresh req idx outcome t s hneedf] at h500
      simp [successResponse, ImageResponse.statusCode] at h500

theorem c10_fetch_total_witness :
    jsTruthyStr ({ cachedImage := none, lastFetchTime := 0
                   lastQueryUsed := "" } : CacheState).cachedImage = false
    ∧ jsTruthyStr (fetchMusicImage
        (requestOpts ⟨none, none, none, none, none⟩ 0) .networkError).imageUrl = false
    ∧ (musicImageHandler ⟨none, none, none, none, none⟩ 0 .networkError 3
        { cachedImage := none, lastFetchTime := 0, lastQueryUsed := "" }).response.errorField
      = some "Failed to fetch initial image" :=
  (c10_fetch_total_and_500_only_when_slot_empty
    { query := "music concert", orientation := "landscape", size := "large2x", color := "" }
    .networkError ⟨none, none, none, none, none⟩ 0 3
    { cachedImage := none, lastFetchTime := 0, lastQueryUsed := "" }).2.2.2 (by decide)

lemma paginate_three {α : Type} (upstream : String → PageResp α)
    (u1 u2 u3 : String) (p1 p2 p3 : Page α) (fuel : Nat)
    (h1 : upstream u1 = .ok p1) (h2 : upstream u2 = .ok p2) (h3 : upstream u3 = .ok p3)
    (hn1 : p1.next = some u2) (hn2 : p2.next = some u3) (hn3 : p3.next = none)
    (hu1 : u1 ≠ "") (hu2 : u2 ≠ "") (hu3 : u3 ≠ "")
    (hfuel : 3 ≤ fuel) :
    paginate upstream fuel u1 = some (.done (p1.data ++ p2.data ++ p3.data) 3) := by
  obtain ⟨f, rfl⟩ : ∃ f, fuel = f + 3 := ⟨fuel - 3, by omega⟩
  simp [paginate, paginateAux, h1, h2, h3, hn1, hn2, hn3, hu1, hu2, hu3, jsOrNull,
    List.append_assoc]

lemma artistPlaylistsUrl_ne_empty (id : String) : artistPlaylistsUrl id ≠ "" := by
  intro h
  have hlen := congrArg String.length h
  rw [artistPlaylistsUrl, String.length_append, String.length_append] at hlen
  have h1 : ("https://api.deezer.com/artist/" : String).length = 30 := by decide
  have h2 : ("/playlists" : String).length = 10 := by decide
  have h3 : ("" : String).length = 0 := by decide
  omega

lemma artistTopUrl_ne_empty (id : String) : artistTopUrl id ≠ "" := by
  intro h
  have hlen := congrArg String.length h
  rw [artistTopUrl, String.length_append, String.length_append] at hlen
  have h1 : ("https://api.deezer.com/artist/" : String).length = 30 := by decide
  have h2 : ("/top?limit=50" : String).length = 13 := by decide
  have h3 : ("" : String).length = 0 := by decide
  omega

/-- Claim C5: for both paginated artist endpoints, given a 3-page upstream
chain where each page's `next` is the following page's URL and page 3 has
no `next`, the pagination loop terminates (for any fuel at least 3), makes
exactly 3 outbound calls, and responds with the concatenation of the three
pages' item arrays in page order, without de-duplication or reordering. -/
theorem c5_paginator_three_pages {α : Type} (id : String)
    (upstreamP upstreamT : String → PageResp α)
    (p1 p2 p3 q1 q2 q3 : Page α) (u2 u3 v2 v3 : String) (fuelP fuelT : Nat)
    (hp1 : upstreamP (artistPlaylistsUrl id) = .ok p1)
    (hp2 : upstreamP u2 = .ok p2) (hp3 : upstreamP u3 = .ok p3)
    (hpn1 : p1.next = some u2) (hpn2 : p2.next = some u3) (hpn3 : p3.next = none)
    (hu2 : u2 ≠ "") (hu3 : u3 ≠ "") (hfuelP : 3 ≤ fuelP)
    (ht1 : upstreamT (artistTopUrl id) = .ok q1)
    (ht2 : upstreamT v2 = .ok q2) (ht3 : upstreamT v3 = .ok q3)
    (htn1 : q1.next = some v2) (htn2 : q2.next = some v3) (htn3 : q3.next = none)
    (hv2 : v2 ≠ "") (hv3 : v3 ≠ "") (hfuelT : 3 ≤ fuelT) :
    artistPlaylistsHandler id upstreamP fuelP
      = some (.done (p1.data ++ p2.data ++ p3.data) 3)
    ∧ artistTopHandler id upstreamT fuelT
      = some (.done (q1.data ++ q2.data ++ q3.data) 3) := by
  constructor
  · exact paginate_three upstreamP (artistPlaylistsUrl id) u2 u3 p1 p2 p3 fuelP
      hp1 hp2 hp3 hpn1 hpn2 hpn3 (artistPlaylistsUrl_ne_empty id) hu2 hu3 hfuelP
  · exact paginate_three upstreamT (artistTopUrl id) v2 v3 q1 q2 q3 fuelT
      ht1 ht2 ht3 htn1 htn2 htn3 (artistTopUrl_ne_empty id) hv2 hv3 hfuelT

theorem c5_paginator_three_pages_witness :
    artistPlaylistsHandler "27"
      (fun url => if url = artistPlaylistsUrl "27" then .ok ⟨[1, 2], some "u2"⟩
        else if url = "u2" then .ok ⟨[3], some "u3"⟩
        else if url = "u3" then .ok ⟨[4, 5], none⟩ else .transportError) 3
      = some (.done ([1, 2] ++ [3] ++ [4, 5]) 3)
    ∧ artistTopHandler "27"
      (fun url => if url = artistTopUrl "27" then .ok ⟨[6], some "v2"⟩
        else if url = "v2" then .ok ⟨[7], some "v3"⟩
        else if url = "v3" then .ok ⟨[8], none⟩ else .transportError) 3
      = some (.done ([6] ++ [7] ++ [8]) 3) :=
  c5_paginator_three_pages "27"
    (fun url => if url = artistPlaylistsUrl "27" then .ok ⟨[1, 2], some "u2"⟩
      else if url = "u2" then .ok ⟨[3], some "u3"⟩
      else if url = "u3" then .ok ⟨[4, 5], none⟩ else .transportError)
    (fun url => if url = artistTopUrl "27" then .ok ⟨[6], some "v2"⟩
      else if url = "v2" then .ok ⟨[7], some "v3"⟩
      else if url = "v3" then .ok ⟨[8], none⟩ else .transportError)
    ⟨[1, 2], some "u2"⟩ ⟨[3], some "u3"⟩ ⟨[4, 5], none⟩
    ⟨[6], some "v2"⟩ ⟨[7], some "v3"⟩ ⟨[8], none⟩
    "u2" "u3" "v2" "v3" 3 3
    (by decide) (by decide) (by decide) rfl rfl rfl (by decide) (by decide) (by decide)
    (by decide) (by decide) (by decide) rfl rfl rfl (by decide) (by decide) (by decide)

/-- Claim C8: for a non-empty upstream track array, `/api/playlist-tracks`
responds with the tracks mapped through the fixed projection in upstream
order (same length, i-th output is the projection of the i-th input), and
each projected track consists of exactly the six documented fields:
id, title, duration, artist {id, name},
album {id, title, cover_small, cover_medium}, and preview. -/
theorem c8_flattened_tracks (id : String) (data : List TrackIn)
    (hid : id ≠ "") (hne : data ≠ []) :
    playlistTracksHandler (some id) (.ok data) = .ok (data.map formatTrack)
    ∧ (data.map formatTrack).length = data.length
    ∧ (∀ i (h1 : i < data.length) (h2 : i < (data.map formatTrack).length),
        (data.map formatTrack).get ⟨i, h2⟩ = formatTrack (data.get ⟨i, h1⟩))
    ∧ (∀ t : TrackIn, formatTrack t
        = { id := t.id, title := t.title, duration := t.duration
            artist := { id := t.artist.id, name := t.artist.name }
            album := { id := t.album.id, title := t.album.title
                       cover_small := t.album.cover_small
                       cover_medium := t.album.cover_medium }
            preview := t.preview }) := by
  refine ⟨?_, List.length_map _ _, ?_, fun t => rfl⟩
  · simp [playlistTracksHandler, jsTruthyStr_some_of_ne id hid]
  · intro i h1 h2
    simp

theorem c8_flattened_tracks_witness :
    playlistTracksHandler (some "908622995")
      (.ok [{ id := 1, title := "A", duration := 200, rank := 5
              artist := { id := 2, name := "B", link := "https://a.example" }
              album := { id := 3, title := "C", cover_small := "s", cover_medium := "m"
                         cover_big := "b" }
              preview := "https://p.example" }])
      = .ok ([{ id := 1, title := "A", duration := 200, rank := 5
                artist := { id := 2, name := "B", link := "https://a.example" }
                album := { id := 3, title := "C", cover_small := "s", cover_medium := "m"
                           cover_big := "b" }
                preview := "https://p.example" }].map formatTrack) :=
  (c8_flattened_tracks "908622995"
    [{ id := 1, title := "A", duration := 200, rank := 5
       artist := { id := 2, name := "B", link := "https://a.example" }
       album := { id := 3, title := "C", cover_small := "s", cover_medium := "m"
                  cover_big := "b" }
       preview := "https://p.example" }] (by decide) (by decide)).1
